import Mathlib

/-!
Verification development for the Personal Finance Assistant backend
(`main.py`, `schemas.py`).  The Python handlers are shallowly embedded:
numbers are modelled as exact rationals, Python `dict`s as insertion-ordered
association lists, Python `datetime` values as explicit records, and the
fallible handler bodies as `Except`-valued functions.  The document store
(`database.py` is not part of the sources; only its two primitives are used)
is modelled from the spec where its behaviour matters.
-/

set_option autoImplicit false

namespace Finance

/-- Python numbers (the `amount`/`limit` fields) are modelled as exact
rationals. -/
abbrev Amount := ℚ

/-! ## Python dictionaries as insertion-ordered association lists -/

/-- `d.get(k, dflt)` on a Python dict modelled as an association list. -/
def dictGet (m : List (String × Amount)) (k : String) (dflt : Amount) : Amount :=
  match m with
  | [] => dflt
  | (k1, v) :: rest => if k1 = k then v else dictGet rest k dflt

/-- `k in d` style lookup returning the value when present. -/
def dictLookup (m : List (String × Amount)) (k : String) : Option Amount :=
  match m with
  | [] => none
  | (k1, v) :: rest => if k1 = k then some v else dictLookup rest k

/-- `d[k] = v` on a Python dict: an existing key keeps its position and gets
the new value, a fresh key is appended at the end (insertion order). -/
def dictSet (m : List (String × Amount)) (k : String) (v : Amount) :
    List (String × Amount) :=
  match m with
  | [] => [(k, v)]
  | (k1, v1) :: rest =>
    if k1 = k then (k, v) :: rest else (k1, v1) :: dictSet rest k v

/-- `sum(d.values())` for a Python dict. -/
def sumValues (m : List (String × Amount)) : Amount :=
  (m.map Prod.snd).sum

/-- `d[k] = d.get(k, 0) + a`, the accumulation step used for `by_cat`. -/
def addToKey (m : List (String × Amount)) (k : String) (a : Amount) :
    List (String × Amount) :=
  dictSet m k (dictGet m k 0 + a)

/-! ## Dates and datetimes -/

/-- A Python `datetime` value (microseconds are never used by the program). -/
structure DateTime where
  year : Nat
  month : Nat
  day : Nat
  hour : Nat
  minute : Nat
  second : Nat
deriving DecidableEq, Repr

/-- Chronological strict comparison of `datetime` values (lexicographic on
the components). -/
def DateTime.ltB (a b : DateTime) : Bool :=
  if a.year < b.year then true
  else if b.year < a.year then false
  else if a.month < b.month then true
  else if b.month < a.month then false
  else if a.day < b.day then true
  else if b.day < a.day then false
  else if a.hour < b.hour then true
  else if b.hour < a.hour then false
  else if a.minute < b.minute then true
  else if b.minute < a.minute then false
  else decide (a.second < b.second)

/-- Chronological non-strict comparison of `datetime` values. -/
def DateTime.leB (a b : DateTime) : Bool :=
  !(DateTime.ltB b a)

/-- Gregorian leap-year rule, as implemented by Python's `datetime`. -/
def isLeap (y : Nat) : Bool :=
  y % 4 = 0 && (y % 100 ≠ 0 || y % 400 = 0)

/-- Number of days of a month, as accepted by Python's `datetime`
constructor. -/
def daysInMonth (y m : Nat) : Nat :=
  if m = 2 then (if isLeap y then 29 else 28)
  else if m = 4 || m = 6 || m = 9 || m = 11 then 30
  else 31

/-- `datetime(y, m, d)`: midnight of the given calendar date when the
components are in the ranges Python's `datetime` accepts, otherwise `none`
(the constructor raises `ValueError`). -/
def mkDate (y m d : Nat) : Option DateTime :=
  if 1 ≤ y ∧ y ≤ 9999 ∧ 1 ≤ m ∧ m ≤ 12 ∧ 1 ≤ d ∧ d ≤ daysInMonth y m then
    some ⟨y, m, d, 0, 0, 0⟩
  else none

/-- The value stored under a transaction's `date` key: either a `datetime`
(after successful normalization) or the raw string (when `strptime` failed
and the exception was swallowed). -/
inductive DateVal where
  | dt (d : DateTime)
  | str (s : String)
deriving DecidableEq, Repr

/-- `true` when the stored date value is a timestamp. -/
def DateVal.isTimestamp : DateVal → Bool
  | DateVal.dt _ => true
  | DateVal.str _ => false

/-! ## String helpers modelling the Python string operations used -/

/-- Decimal digit value of a character. -/
def digitVal (c : Char) : Nat := c.toNat - 48

/-- Whether `needle` occurs at the start of `hay` (character lists). -/
def startsSeq : List Char → List Char → Bool
  | [], _ => true
  | _ :: _, [] => false
  | a :: as, b :: bs => a == b && startsSeq as bs

/-- Whether `needle` occurs contiguously anywhere inside `hay`, the model of
Python's `needle in hay` on strings. -/
def containsSeq (needle : List Char) : List Char → Bool
  | [] => needle.isEmpty
  | b :: bs => startsSeq needle (b :: bs) || containsSeq needle bs

/-- Python `needle in hay` for strings. -/
def strContains (hay needle : String) : Bool :=
  containsSeq needle.data hay.data

/-- Python `s.lower()` (ASCII case folding, the only case the program's
keyword checks rely on). -/
def strLower (s : String) : String :=
  ⟨s.data.map Char.toLower⟩

/-- Python `s.split(sep)` for a one-character separator `c`: splits on every
occurrence, keeping empty pieces, and returns `[""]` on the empty string. -/
def splitOnChar (c : Char) : List Char → List (List Char)
  | [] => [[]]
  | a :: rest =>
    let r := splitOnChar c rest
    if a == c then [] :: r
    else
      match r with
      | [] => [[a]]
      | h :: t => (a :: h) :: t

/-- Python `int(s)` on the pieces produced by `month.split("-")` (so the
piece contains no `-`): optional leading `+`, then a non-empty run of ASCII
digits; anything else raises `ValueError`, modelled as `none`. -/
def digitsVal (cs : List Char) : Option Nat :=
  if cs ≠ [] ∧ cs.all Char.isDigit then
    some (cs.foldl (fun a c => a * 10 + digitVal c) 0)
  else none

/-- `int(·)` applied to one piece of the split month string. -/
def pyIntChars (cs : List Char) : Option Nat :=
  match cs with
  | '+' :: rest => digitsVal rest
  | _ => digitsVal cs

/-- `year, m = map(int, month.split("-"))`: succeeds only when the split
yields exactly two integer-parsable pieces. -/
def parseMonth (s : String) : Option (Nat × Nat) :=
  match splitOnChar '-' s.data with
  | [ys, ms] =>
    (pyIntChars ys).bind fun y => (pyIntChars ms).map fun m => (y, m)
  | _ => none

/-- The month window of `summary`: `start = datetime(year, m, 1)` and
`end = datetime(year + 1, 1, 1)` when `m == 12`, else
`datetime(year, m + 1, 1)`; `none` when either constructor raises. -/
def monthRange (y m : Nat) : Option (DateTime × DateTime) :=
  (mkDate y m 1).bind fun s =>
    ((if m = 12 then mkDate (y + 1) 1 1 else mkDate y (m + 1) 1)).map
      fun e => (s, e)

/-- `datetime.strptime(s, "%Y-%m-%d")` restricted to the strings the
`Transaction.date` regex `^\d{4}-\d{2}-\d{2}$` lets through (the only ones
`add_transaction` applies it to): extract the three digit groups. -/
def parseShape (cs : List Char) : Option (Nat × Nat × Nat) :=
  match cs with
  | [y1, y2, y3, y4, s1, m1, m2, s2, d1, d2] =>
    if y1.isDigit && y2.isDigit && y3.isDigit && y4.isDigit && (s1 == '-') &&
        m1.isDigit && m2.isDigit && (s2 == '-') && d1.isDigit && d2.isDigit then
      some (digitVal y1 * 1000 + digitVal y2 * 100 + digitVal y3 * 10 + digitVal y4,
            digitVal m1 * 10 + digitVal m2,
            digitVal d1 * 10 + digitVal d2)
    else none
  | _ => none

/-- `datetime.strptime(s, "%Y-%m-%d")`: midnight of the parsed calendar date,
or `none` when the components do not form a valid calendar date (strptime
raises `ValueError`, e.g. for month 13). -/
def strptimeYmd (s : String) : Option DateTime :=
  (parseShape s.data).bind fun t => mkDate t.1 t.2.1 t.2.2

/-- The `Transaction.date` validation pattern `^\d{4}-\d{2}-\d{2}$` from
`schemas.py`. -/
def dateRegex (s : String) : Bool :=
  match s.data with
  | [y1, y2, y3, y4, s1, m1, m2, s2, d1, d2] =>
    y1.isDigit && y2.isDigit && y3.isDigit && y4.isDigit && (s1 == '-') &&
      m1.isDigit && m2.isDigit && (s2 == '-') && d1.isDigit && d2.isDigit
  | _ => false

/-! ## Documents and the store -/

/-- A document fetched from the `transaction` collection.  Documents are
schema-flexible, so every field is optional; `oid` is the store-native
`_id` (modelled as a number) and `idField` the plain `id` key the list
endpoints add. -/
structure StoredTxn where
  amount : Option Amount
  type : Option String
  category : Option String
  date : Option DateVal
  notes : Option String
  oid : Option Nat
  idField : Option String
deriving DecidableEq, Repr

/-- A document of the `budget` collection (always written through the
validated `Budget` schema, so the three schema fields are present). -/
structure BudgetDoc where
  month : String
  category : String
  limit : Amount
  oid : Option Nat
  idField : Option String
deriving DecidableEq, Repr

/-- A document of the `chatmessage` collection. -/
structure ChatMsgDoc where
  role : String
  content : String
  session_id : Option String
deriving DecidableEq, Repr

/-- The document store contents.  `database.py` is not among the sources;
Modelled from the spec: `get_documents` returns the documents of a
collection matching a filter, in some fetch order which we represent by the
list order. -/
structure Store where
  txns : List StoredTxn
  budgets : List BudgetDoc
  chat : List ChatMsgDoc
deriving DecidableEq, Repr

/-- Modelled from the spec: the `{"date": {"$gte": start, "$lt": end}}`
range filter of `get_documents`.  Only documents whose `date` field holds a
datetime can satisfy a datetime range predicate; a missing `date` or a raw
string never matches. -/
def txnInRange (s e : DateTime) (d : StoredTxn) : Bool :=
  match d.date with
  | some (DateVal.dt t) => DateTime.leB s t && DateTime.ltB t e
  | _ => false

/-- A generic server error response (`HTTPException`). -/
structure HTTPError where
  status : Nat
  detail : String
deriving DecidableEq, Repr

/-! ## Aggregation (`summary`, main.py lines 91-128) -/

/-- `sum(d.get("amount", 0) for d in docs if d.get("type") == "income")`. -/
def calcIncome (docs : List StoredTxn) : Amount :=
  ((docs.filter fun d => d.type == some "income").map
    fun d => d.amount.getD 0).sum

/-- `sum(d.get("amount", 0) for d in docs if d.get("type") == "expense")`. -/
def calcExpense (docs : List StoredTxn) : Amount :=
  ((docs.filter fun d => d.type == some "expense").map
    fun d => d.amount.getD 0).sum

/-- One iteration of the `by_cat` loop: for an expense document, add its
amount under `d.get("category", "Other")`. -/
def catStep (m : List (String × Amount)) (d : StoredTxn) : List (String × Amount) :=
  if d.type == some "expense" then
    addToKey m (d.category.getD "Other") (d.amount.getD 0)
  else m

/-- The `by_cat` accumulation loop over the fetched documents. -/
def buildCats (docs : List StoredTxn) : List (String × Amount) :=
  docs.foldl catStep []

/-- One iteration of the budgets loop:
`budgets[b["category"]] = b["limit"]`. -/
def budStep (m : List (String × Amount)) (b : BudgetDoc) : List (String × Amount) :=
  dictSet m b.category b.limit

/-- The budgets loop over the fetched budget documents, later documents
overwriting earlier ones. -/
def buildBudgets (bs : List BudgetDoc) : List (String × Amount) :=
  bs.foldl budStep []

/-- The summary payload `{income, expense, net, categories, budgets}`. -/
structure SummaryResult where
  income : Amount
  expense : Amount
  net : Amount
  categories : List (String × Amount)
  budgets : List (String × Amount)
deriving DecidableEq, Repr

/-- Builds the summary payload from the fetched transaction and budget
documents. -/
def mkSummary (docs : List StoredTxn) (bs : List BudgetDoc) : SummaryResult :=
  { income := calcIncome docs
    expense := calcExpense docs
    net := calcIncome docs - calcExpense docs
    categories := buildCats docs
    budgets := buildBudgets bs }

/-- Python truthiness of the optional `month` query value: `None` and the
empty string are falsy, so both mean "no month filter". -/
def effMonth (month : Option String) : Option String :=
  match month with
  | some s => if s = "" then none else some s
  | none => none

/-- The body of `GET /api/summary` (main.py lines 91-128).  A `ValueError`
from the month parsing or the `datetime` constructors is caught by the
`except` clause and surfaced as a 500 with the exception text. -/
def summaryImpl (st : Store) (month : Option String) :
    Except HTTPError SummaryResult :=
  match effMonth month with
  | none => Except.ok (mkSummary st.txns st.budgets)
  | some ms =>
    match parseMonth ms with
    | none => Except.error { status := 500, detail := "month parse ValueError" }
    | some ym =>
      match monthRange ym.1 ym.2 with
      | none => Except.error { status := 500, detail := "datetime ValueError" }
      | some se =>
        Except.ok (mkSummary (st.txns.filter (txnInRange se.1 se.2))
          (st.budgets.filter fun b => b.month == ms))

/-- The status of an error result, `none` on success. -/
def errStatus {α : Type} : Except HTTPError α → Option Nat
  | Except.error e => some e.status
  | Except.ok _ => none

/-! ## Number formatting (`f"{x:.2f}"`) -/

/-- Two decimal places of a non-negative rational, rounding halves up (the
exact values the program prints are never affected by the tie-breaking
mode of the float formatter). -/
def format2abs (q : ℚ) : String :=
  let cents : ℤ := Rat.floor (q * 100 + 1 / 2)
  let n := cents.toNat
  toString (n / 100) ++ "." ++ (if n % 100 < 10 then "0" else "") ++
    toString (n % 100)

/-- `f"{q:.2f}"`. -/
def format2 (q : ℚ) : String :=
  if q.num < 0 then "-" ++ format2abs (-q) else format2abs q

/-! ## The rule-based chat responder (main.py lines 161-202) -/

/-- `"\n".join(lines)`. -/
def pyJoin : List String → String
  | [] => ""
  | [a] => a
  | a :: rest => a ++ "\n" ++ pyJoin rest

/-- `month or 'all time'` (`None` and `""` are falsy). -/
def monthLabel (month : Option String) : String :=
  match month with
  | some ms => if ms = "" then "all time" else ms
  | none => "all time"

/-- `max(s["categories"], key=...)` together with the looked-up amount: the
first key with the maximal value (a later key replaces the current best only
when strictly greater); `none` on an empty dict. -/
def maxKey : List (String × Amount) → Option (String × Amount)
  | [] => none
  | p :: rest =>
    some (rest.foldl (fun (b q : String × Amount) => if q.2 > b.2 then q else b) p)

/-- The spending reply (lines 173-180).  The top-category sentence is
appended only when `top_cat` is truthy, so an empty-string category name is
skipped exactly as in Python. -/
def spendingReply (month : Option String) (s : SummaryResult) : String :=
  "For " ++ monthLabel month ++ ", you spent $" ++ format2 s.expense ++ ". " ++
    (match maxKey s.categories with
     | some kv =>
       if kv.1 = "" then ""
       else "Your top spending category is " ++ kv.1 ++ " at $" ++
         format2 kv.2 ++ ". "
     | none => "")

/-- The income reply (line 182). -/
def incomeReply (month : Option String) (s : SummaryResult) : String :=
  "For " ++ monthLabel month ++ ", your income totals $" ++ format2 s.income ++
    ". Net is $" ++ format2 s.net ++ "."

/-- One line of the budget reply (line 187):
`f"- {cat}: ${spent:.2f} / ${lim:.2f} ({'over' if spent>lim else 'under'})"`. -/
def budgetLine (cats : List (String × Amount)) (cat : String) (lim : Amount) :
    String :=
  let spent := dictGet cats cat 0
  "- " ++ cat ++ ": $" ++ format2 spent ++ " / $" ++ format2 lim ++ " (" ++
    (if spent > lim then "over" else "under") ++ ")"

/-- The budget reply (lines 183-188). -/
def budgetReply (s : SummaryResult) : String :=
  let lines := "Budgets:" :: s.budgets.map fun p => budgetLine s.categories p.1 p.2
  if lines.length > 1 then pyJoin lines else "No budgets set yet."

/-- The fixed fallback help text (lines 190-193). -/
def helpText : String :=
  "I can help with your personal finance. Ask things like \x27show expenses this month\x27, \x27what\x27s my income\x27, or \x27how am I doing against my budget?\x27."

/-- The intent dispatch of `chat` (lines 169-193): first matching keyword of
the lower-cased message wins. -/
def replyFor (month : Option String) (message : String) (s : SummaryResult) :
    String :=
  let um := strLower message
  if strContains um "spend" || strContains um "expense" then
    spendingReply month s
  else if strContains um "income" then incomeReply month s
  else if strContains um "budget" then budgetReply s
  else helpText

/-- Modelled from the spec: `create_document` appends the document to its
collection; the inner `try/except pass` of `chat` means a failing first
insert skips the second, and any failure leaves the reply untouched.  The
two booleans say whether each insert succeeds. -/
def chatPersist (st : Store) (ok1 ok2 : Bool) (userMsg reply : String) :
    Store :=
  if ok1 then
    let st1 := { st with chat := st.chat ++ [⟨"user", userMsg, none⟩] }
    if ok2 then { st1 with chat := st1.chat ++ [⟨"assistant", reply, none⟩] }
    else st1
  else st

/-- The body of `POST /api/chat` (lines 166-202): ground the reply in the
summary, dispatch on keywords, best-effort persist both chat messages, and
return `{reply, summary}`.  An exception from `summary` (itself an
`HTTPException`) is re-raised as a 500. -/
def chatEndpoint (st : Store) (message : String) (month : Option String)
    (ok1 ok2 : Bool) : Except HTTPError (String × SummaryResult) × Store :=
  match summaryImpl st month with
  | Except.error e =>
    (Except.error { status := 500, detail := e.detail }, st)
  | Except.ok s =>
    let reply := replyFor month message s
    (Except.ok (reply, s), chatPersist st ok1 ok2 message reply)

/-- The reply of a chat response, `none` on error. -/
def replyOf : Except HTTPError (String × SummaryResult) → Option String
  | Except.ok rs => some rs.1
  | Except.error _ => none

/-! ## Transaction write and the two list endpoints -/

/-- A request body of `POST /api/transactions` after `TransactionCreate`
validation. -/
structure TxnIn where
  amount : Amount
  type : String
  category : String
  date : String
  notes : Option String
deriving DecidableEq, Repr

/-- The document `add_transaction` (lines 62-74) persists: the `date` string
is replaced by the `strptime` result, and on a `ValueError` the conversion
is skipped (`except: pass`), leaving the raw string.  Modelled from the
spec: the store assigns the fresh identifier `newId`. -/
def txnDocOf (t : TxnIn) (newId : Nat) : StoredTxn :=
  { amount := some t.amount
    type := some t.type
    category := some t.category
    date := some (match strptimeYmd t.date with
      | some dt => DateVal.dt dt
      | none => DateVal.str t.date)
    notes := t.notes
    oid := some newId
    idField := none }

/-- The body of `POST /api/transactions`: insert the converted document and
return the new identifier. -/
def addTransaction (st : Store) (t : TxnIn) (newId : Nat) : Nat × Store :=
  (newId, { st with txns := st.txns ++ [txnDocOf t newId] })

/-- Zero-padded four-digit year of `date.isoformat()`. -/
def pad4 (n : Nat) : String :=
  if n < 10 then "000" ++ toString n
  else if n < 100 then "00" ++ toString n
  else if n < 1000 then "0" ++ toString n
  else toString n

/-- Zero-padded two-digit component of `date.isoformat()`. -/
def pad2 (n : Nat) : String :=
  if n < 10 then "0" ++ toString n else toString n

/-- `d["date"].date().isoformat()`: the calendar date of a datetime as
`YYYY-MM-DD`. -/
def isoDate (d : DateTime) : String :=
  pad4 d.year ++ "-" ++ pad2 d.month ++ "-" ++ pad2 d.day

/-- The date rewrite of `list_transactions` (lines 82-83): a datetime-valued
`date` becomes its ISO date string; anything else is left alone. -/
def isoDateFix (d : StoredTxn) : StoredTxn :=
  match d.date with
  | some (DateVal.dt t) => { d with date := some (DateVal.str (isoDate t)) }
  | _ => d

/-- The per-document rewrite of `list_transactions` (lines 81-85): datetime
dates become ISO strings, and a present `_id` is popped and re-exposed as
the string field `id`. -/
def txnView (d : StoredTxn) : StoredTxn :=
  let d1 := isoDateFix d
  match d1.oid with
  | some o => { d1 with oid := none, idField := some (toString o) }
  | none => d1

/-- The items of `GET /api/transactions` (lines 77-88); the `limit` query
caps the fetch. -/
def listTransactions (st : Store) (limit : Option Nat) : List StoredTxn :=
  (match limit with
   | some n => st.txns.take n
   | none => st.txns).map txnView

/-- The per-document rewrite of `list_budgets` (lines 149-151). -/
def budgetView (b : BudgetDoc) : BudgetDoc :=
  match b.oid with
  | some o => { b with oid := none, idField := some (toString o) }
  | none => b

/-- The items of `GET /api/budgets` (lines 144-154): optional exact-match
month filter, then the `_id` rewrite. -/
def listBudgets (st : Store) (month : Option String) : List BudgetDoc :=
  (match effMonth month with
   | some ms => st.budgets.filter fun (b : BudgetDoc) => b.month == ms
   | none => st.budgets).map budgetView

/-! ## Concrete documents used by witnesses and counterexamples -/

/-- The transaction of the spec scenario, as `add_transaction` stores it. -/
def demoTxn : StoredTxn :=
  { amount := some 50, type := some "expense", category := some "groceries",
    date := some (DateVal.dt ⟨2025, 1, 5, 0, 0, 0⟩), notes := none,
    oid := some 1, idField := none }

/-- The budget of the spec scenario. -/
def demoBudget : BudgetDoc :=
  { month := "2025-01", category := "groceries", limit := 40,
    oid := some 2, idField := none }

/-- A store holding exactly the scenario transaction and budget. -/
def demoStore : Store :=
  { txns := [demoTxn], budgets := [demoBudget], chat := [] }

/-- The summary the scenario store yields for month `2025-01`. -/
def demoSummary : SummaryResult :=
  { income := 0, expense := 50, net := -50,
    categories := [("groceries", 50)], budgets := [("groceries", 40)] }

/-- The scenario transaction as a request body with a valid date. -/
def demoTxnIn : TxnIn :=
  { amount := 50, type := "expense", category := "groceries",
    date := "2025-01-05", notes := none }

/-- A request body whose date matches the regex but is no calendar date. -/
def badTxnIn : TxnIn :=
  { amount := 50, type := "expense", category := "groceries",
    date := "2025-13-01", notes := none }

/-- A fetched expense document lacking both `category` and `amount`. -/
def bareTxn : StoredTxn :=
  { amount := none, type := some "expense", category := none,
    date := none, notes := none, oid := none, idField := none }

/-! ## Helper lemmas: dictionaries -/

/-- `dictGet` after `dictSet`. -/
theorem dictGet_dictSet (m : List (String × Amount)) (k c : String)
    (v dflt : Amount) :
    dictGet (dictSet m k v) c dflt = if k = c then v else dictGet m c dflt := by
  induction m with
  | nil =>
    by_cases h : k = c <;> simp [dictSet, dictGet, h]
  | cons p rest ih =>
    obtain ⟨k1, v1⟩ := p
    by_cases h1 : k1 = k
    · subst h1
      by_cases h2 : k1 = c <;> simp [dictSet, dictGet, h2]
    · by_cases h2 : k1 = c
      · subst h2
        have : ¬ k = k1 := fun h => h1 h.symm
        simp [dictSet, dictGet, h1, this]
      · simp [dictSet, dictGet, h1, h2, ih]

/-- `dictLookup` after `dictSet`. -/
theorem dictLookup_dictSet (m : List (String × Amount)) (k c : String)
    (v : Amount) :
    dictLookup (dictSet m k v) c = if k = c then some v else dictLookup m c := by
  induction m with
  | nil =>
    by_cases h : k = c <;> simp [dictSet, dictLookup, h]
  | cons p rest ih =>
    obtain ⟨k1, v1⟩ := p
    by_cases h1 : k1 = k
    · subst h1
      by_cases h2 : k1 = c <;> simp [dictSet, dictLookup, h2]
    · by_cases h2 : k1 = c
      · subst h2
        have : ¬ k = k1 := fun h => h1 h.symm
        simp [dictSet, dictLookup, h1, this]
      · simp [dictSet, dictLookup, h1, h2, ih]

/-- Accumulating into a key adds the amount to the sum of the values. -/
theorem sumValues_addToKey (m : List (String × Amount)) (k : String)
    (a : Amount) :
    sumValues (addToKey m k a) = sumValues m + a := by
  induction m with
  | nil => simp [addToKey, dictSet, dictGet, sumValues]
  | cons p rest ih =>
    obtain ⟨k1, v1⟩ := p
    by_cases h1 : k1 = k
    · subst h1
      simp [addToKey, dictSet, dictGet, sumValues]
      ring
    · have hg : dictGet ((k1, v1) :: rest) k 0 = dictGet rest k 0 := by
        simp [dictGet, h1]
      simp only [addToKey, dictSet, if_neg h1, hg, sumValues, List.map_cons,
        List.sum_cons] at *
      rw [ih]
      ring

/-- Accumulating into key `k` changes `dictGet` only at `k`, by the added
amount. -/
theorem dictGet_addToKey (m : List (String × Amount)) (k c : String)
    (a : Amount) :
    dictGet (addToKey m k a) c 0 = dictGet m c 0 + (if k = c then a else 0) := by
  rw [addToKey, dictGet_dictSet]
  by_cases h : k = c
  · subst h; simp
  · simp [h]

/-! ## Helper lemmas: aggregation -/

/-- The expense amount a single document contributes to the category `c`
(documents without a `category` count for `"Other"`, documents without an
`amount` contribute `0`). -/
def catSum (c : String) : List StoredTxn → Amount
  | [] => 0
  | d :: ds =>
    (if d.type = some "expense" ∧ d.category.getD "Other" = c then
      d.amount.getD 0
    else 0) + catSum c ds

theorem catSum_append (c : String) (l1 l2 : List StoredTxn) :
    catSum c (l1 ++ l2) = catSum c l1 + catSum c l2 := by
  induction l1 with
  | nil => simp [catSum]
  | cons d ds ih =>
    show (if d.type = some "expense" ∧ d.category.getD "Other" = c then
        d.amount.getD 0 else 0) + catSum c (ds ++ l2) = _
    rw [ih, catSum]
    ring

theorem calcExpense_cons (d : StoredTxn) (ds : List StoredTxn) :
    calcExpense (d :: ds)
      = (if d.type = some "expense" then d.amount.getD 0 else 0)
        + calcExpense ds := by
  by_cases h : d.type = some "expense" <;>
    simp [calcExpense, List.filter_cons, h]

theorem calcIncome_cons (d : StoredTxn) (ds : List StoredTxn) :
    calcIncome (d :: ds)
      = (if d.type = some "income" then d.amount.getD 0 else 0)
        + calcIncome ds := by
  by_cases h : d.type = some "income" <;>
    simp [calcIncome, List.filter_cons, h]

theorem calcExpense_append (l1 l2 : List StoredTxn) :
    calcExpense (l1 ++ l2) = calcExpense l1 + calcExpense l2 := by
  simp [calcExpense, List.filter_append]

theorem calcIncome_append (l1 l2 : List StoredTxn) :
    calcIncome (l1 ++ l2) = calcIncome l1 + calcIncome l2 := by
  simp [calcIncome, List.filter_append]

/-- The value sum of the category fold equals the accumulator's sum plus the
expense total of the processed documents. -/
theorem sumValues_foldl_catStep (docs : List StoredTxn)
    (m : List (String × Amount)) :
    sumValues (docs.foldl catStep m) = sumValues m + calcExpense docs := by
  induction docs generalizing m with
  | nil => simp [calcExpense]
  | cons d ds ih =>
    rw [List.foldl_cons, ih, calcExpense_cons]
    by_cases h : d.type = some "expense"
    · rw [catStep, if_pos (by simpa using h), sumValues_addToKey, if_pos h]
      ring
    · rw [catStep, if_neg (by simpa using h), if_neg h]
      ring

/-- The summary's `categories` values sum to the expense total. -/
theorem sumValues_buildCats (docs : List StoredTxn) :
    sumValues (buildCats docs) = calcExpense docs := by
  have h := sumValues_foldl_catStep docs []
  simpa [buildCats, sumValues] using h

/-- `dictGet` after the category fold: the accumulator's entry plus the
per-category expense contribution of the processed documents. -/
theorem dictGet_foldl_catStep (docs : List StoredTxn)
    (m : List (String × Amount)) (c : String) :
    dictGet (docs.foldl catStep m) c 0 = dictGet m c 0 + catSum c docs := by
  induction docs generalizing m with
  | nil => simp [catSum]
  | cons d ds ih =>
    rw [List.foldl_cons, ih, catSum]
    by_cases h : d.type = some "expense"
    · rw [catStep, if_pos (by simpa using h), dictGet_addToKey]
      by_cases hc : d.category.getD "Other" = c
      · rw [if_pos hc, if_pos ⟨h, hc⟩]
        ring
      · rw [if_neg hc, if_neg (by intro hand; exact hc hand.2)]
        ring
    · rw [catStep, if_neg (by simpa using h),
        if_neg (by intro hand; exact h hand.1)]
      ring

/-- Closed form of the `categories` entry for one category. -/
theorem dictGet_buildCats (docs : List StoredTxn) (c : String) :
    dictGet (buildCats docs) c 0 = catSum c docs := by
  have h := dictGet_foldl_catStep docs [] c
  simpa [buildCats, dictGet] using h

/-- The budget fold looks up to the latest processed record per category. -/
theorem dictLookup_foldl_budStep (bs : List BudgetDoc)
    (m : List (String × Amount)) (c : String) :
    dictLookup (bs.foldl budStep m) c
      = match (bs.filter fun b => b.category == c).getLast? with
        | some b => some b.limit
        | none => dictLookup m c := by
  induction bs generalizing m with
  | nil => simp
  | cons b rest ih =>
    rw [List.foldl_cons, ih, List.filter_cons]
    by_cases h : b.category = c
    · have hbc : (b.category == c) = true := by simpa using h
      simp only [hbc, if_true]
      cases hf : (rest.filter fun b => b.category == c) with
      | nil =>
        simp [budStep, dictLookup_dictSet, h]
      | cons x xs =>
        rw [List.getLast?_cons_cons,
          List.getLast?_eq_getLast (x :: xs) (by simp)]
    · have hbc : (b.category == c) = false := by simpa using h
      simp only [hbc, Bool.false_eq_true, if_false]
      cases hf : (rest.filter fun b => b.category == c) with
      | nil =>
        simp [budStep, dictLookup_dictSet, h]
      | cons x xs =>
        rw [List.getLast?_eq_getLast (x :: xs) (by simp)]

/-! ## Helper lemmas: substring containment in joined lines -/

theorem startsSeq_self_append (n r : List Char) :
    startsSeq n (n ++ r) = true := by
  induction n with
  | nil => rfl
  | cons a as ih => simp [startsSeq, ih]

theorem containsSeq_of_startsSeq (n h : List Char)
    (hs : startsSeq n h = true) : containsSeq n h = true := by
  cases h with
  | nil =>
    cases n with
    | nil => rfl
    | cons a as => exact absurd hs (by simp [startsSeq])
  | cons b bs => simp [containsSeq, hs]

theorem containsSeq_append_left (n s t : List Char)
    (h : containsSeq n t = true) : containsSeq n (s ++ t) = true := by
  induction s with
  | nil => simpa using h
  | cons a as ih => simp [containsSeq, ih]

/-- Every line of a `"\n".join` occurs as a substring of the join. -/
theorem strContains_pyJoin (ls : List String) (l : String) (h : l ∈ ls) :
    strContains (pyJoin ls) l = true := by
  induction ls with
  | nil => cases h
  | cons a rest ih =>
    cases rest with
    | nil =>
      rcases List.mem_singleton.mp h with rfl
      have := startsSeq_self_append l.data []
      rw [List.append_nil] at this
      exact containsSeq_of_startsSeq _ _ this
    | cons b t =>
      have hj : pyJoin (a :: b :: t) = a ++ "\n" ++ pyJoin (b :: t) := rfl
      rcases List.mem_cons.mp h with rfl | hmem
      · show containsSeq l.data (pyJoin (l :: b :: t)).data = true
        have hd : (pyJoin (l :: b :: t)).data
            = l.data ++ ("\n".data ++ (pyJoin (b :: t)).data) := by
          rw [hj]
          simp [String.data_append]
        rw [hd]
        exact containsSeq_of_startsSeq _ _ (startsSeq_self_append _ _)
      · show containsSeq l.data (pyJoin (a :: b :: t)).data = true
        have hd : (pyJoin (a :: b :: t)).data
            = (a.data ++ "\n".data) ++ (pyJoin (b :: t)).data := by
          rw [hj]
          simp [String.data_append]
        rw [hd]
        exact containsSeq_append_left _ _ _ (ih hmem)

/-! ## Helper lemmas: dates -/

theorem daysInMonth_pos (y m : Nat) : 1 ≤ daysInMonth y m := by
  unfold daysInMonth
  split
  · split <;> omega
  · split <;> omega

theorem mkDate_first (y m : Nat) (h1 : 1 ≤ y) (h2 : y ≤ 9999) (h3 : 1 ≤ m)
    (h4 : m ≤ 12) : mkDate y m 1 = some ⟨y, m, 1, 0, 0, 0⟩ := by
  unfold mkDate
  rw [if_pos ⟨h1, h2, h3, h4, le_refl 1, daysInMonth_pos y m⟩]

/-- The month window the summary builds, for an in-range year and month. -/
theorem monthRange_eq (y m : Nat) (h1 : 1 ≤ y) (h2 : y ≤ 9999) (h3 : 1 ≤ m)
    (h4 : m ≤ 12) (h5 : m = 12 → y < 9999) :
    monthRange y m = some (⟨y, m, 1, 0, 0, 0⟩,
      if m = 12 then ⟨y + 1, 1, 1, 0, 0, 0⟩ else ⟨y, m + 1, 1, 0, 0, 0⟩) := by
  by_cases hm : m = 12
  · subst hm
    have hs := mkDate_first y 12 h1 h2 (by omega) (by omega)
    have he := mkDate_first (y + 1) 1 (by omega) (by have := h5 rfl; omega)
      (by omega) (by omega)
    simp [monthRange, hs, he]
  · have hs := mkDate_first y m h1 h2 h3 h4
    have he := mkDate_first y (m + 1) h1 h2 (by omega) (by omega)
    simp [monthRange, hs, hm, he]

/-- A successful `strptime` yields a midnight timestamp. -/
theorem strptimeYmd_midnight (s : String) (dt : DateTime)
    (h : strptimeYmd s = some dt) :
    dt.hour = 0 ∧ dt.minute = 0 ∧ dt.second = 0 := by
  unfold strptimeYmd at h
  cases hps : parseShape s.data with
  | none => rw [hps] at h; cases h
  | some t =>
    rw [hps] at h
    have h2 : mkDate t.1 t.2.1 t.2.2 = some dt := h
    unfold mkDate at h2
    split at h2
    · cases h2
      exact ⟨rfl, rfl, rfl⟩
    · cases h2

/-! ## Claim C2: the month filter of `GET /api/summary` -/

/-- C2.  For a month string parsing to an in-range `(y, m)`, the summary is
computed from exactly the stored transactions whose `date` is a timestamp in
the half-open window from midnight of the first of the month to midnight of
the first of the next month, December rolling over to January of `y + 1`;
the budgets are those with that exact `month` string. -/
theorem summary_month_window (st : Store) (ms : String) (y m : Nat)
    (hne : ms ≠ "") (hparse : parseMonth ms = some (y, m))
    (h1 : 1 ≤ y) (h2 : y ≤ 9999) (h3 : 1 ≤ m) (h4 : m ≤ 12)
    (h5 : m = 12 → y < 9999) :
    summaryImpl st (some ms)
        = Except.ok (mkSummary
            (st.txns.filter (txnInRange ⟨y, m, 1, 0, 0, 0⟩
              (if m = 12 then ⟨y + 1, 1, 1, 0, 0, 0⟩ else ⟨y, m + 1, 1, 0, 0, 0⟩)))
            (st.budgets.filter fun b => b.month == ms))
    ∧ ∀ d : StoredTxn,
        d ∈ st.txns.filter (txnInRange ⟨y, m, 1, 0, 0, 0⟩
            (if m = 12 then ⟨y + 1, 1, 1, 0, 0, 0⟩ else ⟨y, m + 1, 1, 0, 0, 0⟩)) ↔
          d ∈ st.txns ∧ txnInRange ⟨y, m, 1, 0, 0, 0⟩
            (if m = 12 then ⟨y + 1, 1, 1, 0, 0, 0⟩ else ⟨y, m + 1, 1, 0, 0, 0⟩) d
              = true := by
  constructor
  · simp [summaryImpl, effMonth, if_neg hne, hparse,
      monthRange_eq y m h1 h2 h3 h4 h5]
  · intro d
    exact List.mem_filter

/-- Witness for C2 at the scenario store and month `2025-01`. -/
theorem summary_month_window_witness :
    summaryImpl demoStore (some "2025-01")
        = Except.ok (mkSummary
            (demoStore.txns.filter
              (txnInRange ⟨2025, 1, 1, 0, 0, 0⟩ ⟨2025, 2, 1, 0, 0, 0⟩))
            (demoStore.budgets.filter fun b => b.month == "2025-01"))
    ∧ (demoTxn ∈ demoStore.txns.filter
        (txnInRange ⟨2025, 1, 1, 0, 0, 0⟩ ⟨2025, 2, 1, 0, 0, 0⟩)) := by
  have h := summary_month_window demoStore "2025-01" 2025 1 (by decide)
    (by decide) (by decide) (by decide) (by decide) (by decide) (by decide)
  constructor
  · have h1 := h.1
    simpa using h1
  · have h2 := (h.2 demoTxn).mpr ⟨by simp [demoStore], by decide⟩
    simpa using h2

/-! ## Claim C3: last fetched budget record wins -/

/-- C3.  The summary's `budgets` mapping is built by the overwrite loop, and
its entry for a category is the `limit` of the last fetched budget document
of that category (so of two records for the same category and month, the one
fetched last is reported). -/
theorem summary_budget_last_wins (docs : List StoredTxn) (bs : List BudgetDoc)
    (c : String) :
    (mkSummary docs bs).budgets = buildBudgets bs
    ∧ dictLookup (buildBudgets bs) c
        = ((bs.filter fun b => b.category == c).getLast?).map BudgetDoc.limit := by
  refine ⟨rfl, ?_⟩
  rw [buildBudgets, dictLookup_foldl_budStep]
  cases hlast : (bs.filter fun b => b.category == c).getLast? with
  | none => rfl
  | some b => rfl

/-! ## Claim C6: category values sum to the expense total -/

/-- C6.  For every summary the endpoint returns, the values of `categories`
sum to the `expense` total. -/
theorem summary_categories_total (st : Store) (month : Option String)
    (s : SummaryResult) (h : summaryImpl st month = Except.ok s) :
    sumValues s.categories = s.expense := by
  unfold summaryImpl at h
  split at h
  · rw [Except.ok.injEq] at h
    subst h
    exact sumValues_buildCats _
  · split at h
    · cases h
    · split at h
      · cases h
      · rw [Except.ok.injEq] at h
        subst h
        exact sumValues_buildCats _

/-- Witness for C6 at the scenario store. -/
theorem summary_categories_total_witness :
    sumValues demoSummary.categories = demoSummary.expense :=
  summary_categories_total demoStore (some "2025-01") demoSummary
    (by with_unfolding_all rfl)

/-! ## Claim C7: chat persistence failures never change the response -/

/-- C7.  The `{reply, summary}` value `POST /api/chat` returns does not
depend on whether persisting either `ChatMessage` document succeeds. -/
theorem chat_reply_persist_independent (st : Store) (msg : String)
    (month : Option String) (o1 o2 p1 p2 : Bool) :
    (chatEndpoint st msg month o1 o2).1 = (chatEndpoint st msg month p1 p2).1 := by
  unfold chatEndpoint
  rcases hsum : summaryImpl st month with e | s <;> simp [hsum]

/-! ## Claim C9: a malformed month yields a 500, not a client error -/

/-- C9.  For a non-empty `month` value that does not split into exactly two
integer-parsable pieces, or whose pieces the `datetime` constructor rejects
(e.g. month 13), `GET /api/summary` responds with a generic 500 server
error. -/
theorem summary_invalid_month_500 (st : Store) (ms : String) (hne : ms ≠ "")
    (hbad : parseMonth ms = none
      ∨ ∃ ym : Nat × Nat, parseMonth ms = some ym ∧ monthRange ym.1 ym.2 = none) :
    errStatus (summaryImpl st (some ms)) = some 500 := by
  rcases hbad with hp | ⟨ym, hp, hr⟩
  · simp [summaryImpl, effMonth, if_neg hne, hp, errStatus]
  · simp [summaryImpl, effMonth, if_neg hne, hp, hr, errStatus]

/-- Witness for C9 at the out-of-range month `2025-13` and at the
unparsable month `abc`. -/
theorem summary_invalid_month_500_witness :
    errStatus (summaryImpl demoStore (some "2025-13")) = some 500
    ∧ errStatus (summaryImpl demoStore (some "abc")) = some 500 :=
  ⟨summary_invalid_month_500 demoStore "2025-13" (by decide)
      (Or.inr ⟨(2025, 13), by decide, by decide⟩),
   summary_invalid_month_500 demoStore "abc" (by decide) (Or.inl (by decide))⟩

/-! ## Claim C10: defaults for missing `category` and `amount` fields -/

/-- C10.  An expense document without a `category` has its amount counted
under the label `"Other"`, and a document without an `amount` contributes
zero to the income, expense and every per-category total. -/
theorem summary_missing_field_defaults (l1 l2 : List StoredTxn) (d : StoredTxn) :
    (d.type = some "expense" → d.category = none →
       dictGet (buildCats (l1 ++ d :: l2)) "Other" 0
         = dictGet (buildCats (l1 ++ l2)) "Other" 0 + d.amount.getD 0)
    ∧ (d.amount = none →
         calcIncome (l1 ++ d :: l2) = calcIncome (l1 ++ l2)
         ∧ calcExpense (l1 ++ d :: l2) = calcExpense (l1 ++ l2)
         ∧ ∀ c : String, dictGet (buildCats (l1 ++ d :: l2)) c 0
             = dictGet (buildCats (l1 ++ l2)) c 0) := by
  constructor
  · intro ht hc
    rw [dictGet_buildCats, dictGet_buildCats, catSum_append, catSum_append,
      catSum]
    rw [if_pos ⟨ht, by rw [hc]; rfl⟩]
    ring
  · intro ha
    refine ⟨?_, ?_, ?_⟩
    · rw [calcIncome_append, calcIncome_append, calcIncome_cons, ha]
      simp
    · rw [calcExpense_append, calcExpense_append, calcExpense_cons, ha]
      simp
    · intro c
      rw [dictGet_buildCats, dictGet_buildCats, catSum_append, catSum_append,
        catSum, ha]
      simp

/-- Witness for C10 at a document with neither `category` nor `amount`. -/
theorem summary_missing_field_defaults_witness :
    dictGet (buildCats ([demoTxn] ++ bareTxn :: [])) "Other" 0
        = dictGet (buildCats ([demoTxn] ++ [])) "Other" 0 + bareTxn.amount.getD 0
    ∧ calcIncome ([demoTxn] ++ bareTxn :: []) = calcIncome ([demoTxn] ++ [])
    ∧ dictGet (buildCats ([demoTxn] ++ bareTxn :: [])) "groceries" 0
        = dictGet (buildCats ([demoTxn] ++ [])) "groceries" 0 :=
  ⟨(summary_missing_field_defaults [demoTxn] [] bareTxn).1 rfl rfl,
   ((summary_missing_field_defaults [demoTxn] [] bareTxn).2 rfl).1,
   ((summary_missing_field_defaults [demoTxn] [] bareTxn).2 rfl).2.2 "groceries"⟩

/-! ## Claim C4: chat intent routing, first match wins -/

/-- C4.  The chat classifier checks the lower-cased message in the fixed
order spend/expense, income, budget, fallback, the first match winning: a
message with both "income" and "spend" gets the spending reply and "hello"
gets the fixed help text. -/
theorem chat_intent_first_match (month : Option String) (msg : String)
    (s : SummaryResult) :
    ((strContains (strLower msg) "spend" || strContains (strLower msg) "expense")
        = true → replyFor month msg s = spendingReply month s)
    ∧ ((strContains (strLower msg) "spend" || strContains (strLower msg) "expense")
        = false →
        strContains (strLower msg) "income" = true →
        replyFor month msg s = incomeReply month s)
    ∧ ((strContains (strLower msg) "spend" || strContains (strLower msg) "expense")
        = false →
        strContains (strLower msg) "income" = false →
        strContains (strLower msg) "budget" = true →
        replyFor month msg s = budgetReply s)
    ∧ ((strContains (strLower msg) "spend" || strContains (strLower msg) "expense")
        = false →
        strContains (strLower msg) "income" = false →
        strContains (strLower msg) "budget" = false →
        replyFor month msg s = helpText)
    ∧ replyFor month "I track my income and what I spend" s = spendingReply month s
    ∧ replyFor month "hello" s = helpText := by
  refine ⟨?_, ?_, ?_, ?_, ?_, ?_⟩
  · intro h
    simp [replyFor, h]
  · intro h1 h2
    simp [replyFor, h1, h2]
  · intro h1 h2 h3
    simp [replyFor, h1, h2, h3]
  · intro h1 h2 h3
    simp [replyFor, h1, h2, h3]
  · rfl
  · rfl

/-- Witness for C4 on a spending and an income message. -/
theorem chat_intent_first_match_witness :
    replyFor none "What did I spend?" demoSummary = spendingReply none demoSummary
    ∧ replyFor none "my income please" demoSummary
        = incomeReply none demoSummary :=
  ⟨(chat_intent_first_match none "What did I spend?" demoSummary).1 (by decide),
   (chat_intent_first_match none "my income please" demoSummary).2.1
     (by decide) (by decide)⟩

/-! ## Claim C5: date normalization of `POST /api/transactions` -/

/-- C5 (amended).  An accepted transaction whose date string denotes a valid
calendar date is persisted with `date` replaced by the midnight timestamp of
that date; when the regex-matching string is no calendar date (`strptime`
raises and the exception is swallowed), the raw string is persisted
unchanged.  The document is appended to the `transaction` collection. -/
theorem add_transaction_date_normalized (st : Store) (t : TxnIn) (i : Nat)
    (dt : DateTime) (_hreg : dateRegex t.date = true) :
    (strptimeYmd t.date = some dt →
       (txnDocOf t i).date = some (DateVal.dt dt)
       ∧ dt.hour = 0 ∧ dt.minute = 0 ∧ dt.second = 0)
    ∧ (strptimeYmd t.date = none →
       (txnDocOf t i).date = some (DateVal.str t.date))
    ∧ (addTransaction st t i).2.txns = st.txns ++ [txnDocOf t i] := by
  refine ⟨?_, ?_, rfl⟩
  · intro hp
    refine ⟨?_, strptimeYmd_midnight t.date dt hp⟩
    simp [txnDocOf, hp]
  · intro hp
    simp [txnDocOf, hp]

/-- Witness for C5 at the scenario transaction `2025-01-05`. -/
theorem add_transaction_date_normalized_witness :
    (txnDocOf demoTxnIn 1).date = some (DateVal.dt ⟨2025, 1, 5, 0, 0, 0⟩) :=
  ((add_transaction_date_normalized demoStore demoTxnIn 1 ⟨2025, 1, 5, 0, 0, 0⟩
      (by decide)).1 (by decide)).1

/-- Counterexample to C5 as stated: `"2025-13-01"` matches the regex, so the
transaction is accepted, but the persisted `date` is the raw string and not
a timestamp. -/
theorem add_transaction_raw_string_counterexample :
    dateRegex badTxnIn.date = true
    ∧ (txnDocOf badTxnIn 7).date = some (DateVal.str "2025-13-01")
    ∧ DateVal.isTimestamp (DateVal.str "2025-13-01") = false := by
  refine ⟨by decide, by decide, rfl⟩

/-! ## Claim C8: the list endpoints strip `_id` and expose `id` -/

theorem isoDateFix_oid (d : StoredTxn) : (isoDateFix d).oid = d.oid := by
  unfold isoDateFix
  split <;> rfl

theorem txnView_oid (d : StoredTxn) : (txnView d).oid = none := by
  simp only [txnView]
  rw [isoDateFix_oid]
  cases h : d.oid with
  | some o => simp
  | none => simp [isoDateFix_oid, h]

theorem txnView_idField (d : StoredTxn) (o : Nat) (h : d.oid = some o) :
    (txnView d).idField = some (toString o) := by
  simp only [txnView]
  rw [isoDateFix_oid, h]

theorem budgetView_oid (b : BudgetDoc) : (budgetView b).oid = none := by
  unfold budgetView
  cases h : b.oid with
  | some o => simp
  | none => simp [h]

theorem budgetView_idField (b : BudgetDoc) (o : Nat) (h : b.oid = some o) :
    (budgetView b).idField = some (toString o) := by
  unfold budgetView
  rw [h]

/-- C8.  Every item returned by `GET /api/transactions` and
`GET /api/budgets` lacks the store-native `_id`, and a fetched document
carrying `_id` is returned with `id` equal to its string rendering. -/
theorem list_items_strip_store_id (st : Store) (limit : Option Nat)
    (month : Option String) (dout : StoredTxn) (bout : BudgetDoc)
    (din : StoredTxn) (bdin : BudgetDoc) (o : Nat) :
    (dout ∈ listTransactions st limit → dout.oid = none)
    ∧ (bout ∈ listBudgets st month → bout.oid = none)
    ∧ (din.oid = some o →
        (txnView din).oid = none ∧ (txnView din).idField = some (toString o))
    ∧ (bdin.oid = some o →
        (budgetView bdin).oid = none
        ∧ (budgetView bdin).idField = some (toString o)) := by
  refine ⟨?_, ?_, ?_, ?_⟩
  · intro hmem
    unfold listTransactions at hmem
    rcases List.mem_map.mp hmem with ⟨x, _, rfl⟩
    exact txnView_oid x
  · intro hmem
    unfold listBudgets at hmem
    rcases List.mem_map.mp hmem with ⟨x, _, rfl⟩
    exact budgetView_oid x
  · intro h
    exact ⟨txnView_oid din, txnView_idField din o h⟩
  · intro h
    exact ⟨budgetView_oid bdin, budgetView_idField bdin o h⟩

/-- Witness for C8 at the scenario store, whose documents carry `_id`s. -/
theorem list_items_strip_store_id_witness :
    (txnView demoTxn).oid = none
    ∧ (budgetView demoBudget).oid = none
    ∧ ((txnView demoTxn).oid = none
        ∧ (txnView demoTxn).idField = some (toString 1))
    ∧ ((budgetView demoBudget).oid = none
        ∧ (budgetView demoBudget).idField = some (toString 2)) :=
  ⟨(list_items_strip_store_id demoStore (some 100) none (txnView demoTxn)
      (budgetView demoBudget) demoTxn demoBudget 1).1 (List.Mem.head _),
   (list_items_strip_store_id demoStore (some 100) none (txnView demoTxn)
      (budgetView demoBudget) demoTxn demoBudget 1).2.1 (List.Mem.head _),
   (list_items_strip_store_id demoStore (some 100) none (txnView demoTxn)
      (budgetView demoBudget) demoTxn demoBudget 1).2.2.1 rfl,
   (list_items_strip_store_id demoStore (some 100) none (txnView demoTxn)
      (budgetView demoBudget) demoTxn demoBudget 2).2.2.2 rfl⟩

/-! ## Claim C1: the budget reply line of `POST /api/chat` -/

/-- C1 (amended).  When the summary for `2025-01` reports 50 spent on
groceries and carries the budget entry `(groceries, 40)`, the chat reply to
"how is my budget?" is the budget reply, and it contains the line
`- groceries: $50.00 / $40.00 (over)` — the code's line format is
`- <category>: $<spent> / $<limit> (over|under)`, "over" because 50 strictly
exceeds 40. -/
theorem chat_budget_reply_line (st : Store) (s : SummaryResult)
    (hok : summaryImpl st (some "2025-01") = Except.ok s)
    (hb : ("groceries", (40 : Amount)) ∈ s.budgets)
    (hspent : dictGet s.categories "groceries" 0 = 50) :
    (chatEndpoint st "how is my budget?" (some "2025-01") true true).1
        = Except.ok (replyFor (some "2025-01") "how is my budget?" s, s)
    ∧ replyFor (some "2025-01") "how is my budget?" s = budgetReply s
    ∧ strContains (budgetReply s) "- groceries: $50.00 / $40.00 (over)" = true := by
  refine ⟨?_, rfl, ?_⟩
  · unfold chatEndpoint
    rw [hok]
  · have hline : budgetLine s.categories "groceries" 40
        = "- groceries: $50.00 / $40.00 (over)" := by
      simp only [budgetLine]
      rw [hspent]
      with_unfolding_all rfl
    have hmem : budgetLine s.categories "groceries" 40
        ∈ ("Budgets:" :: s.budgets.map fun p => budgetLine s.categories p.1 p.2) := by
      apply List.mem_cons_of_mem
      have hm := List.mem_map_of_mem
        (fun p : String × Amount => budgetLine s.categories p.1 p.2) hb
      simpa using hm
    have hlen : ("Budgets:" ::
        s.budgets.map fun p => budgetLine s.categories p.1 p.2).length > 1 := by
      simp only [List.length_cons, List.length_map]
      have := List.length_pos.mpr (List.ne_nil_of_mem hb)
      omega
    have hbr : budgetReply s
        = pyJoin ("Budgets:" ::
            s.budgets.map fun p => budgetLine s.categories p.1 p.2) := by
      simp only [budgetReply]
      rw [if_pos hlen]
    rw [hbr, ← hline]
    exact strContains_pyJoin _ _ hmem

/-- Witness for C1 (amended) at the scenario store's summary. -/
theorem chat_budget_reply_line_witness :
    strContains (budgetReply demoSummary) "- groceries: $50.00 / $40.00 (over)"
      = true :=
  (chat_budget_reply_line demoStore demoSummary (by with_unfolding_all rfl)
    (List.Mem.head _) (by with_unfolding_all rfl)).2.2

/-- Counterexample to C1 as stated: on the store holding exactly the claimed
transaction and budget, the chat reply is
`Budgets:\n- groceries: $50.00 / $40.00 (over)`, which does not contain the
claimed line `groceries: 50.00/40.00 (over)` (the code puts `- `, dollar
signs and spaces around the slash). -/
theorem chat_budget_line_counterexample :
    replyOf (chatEndpoint demoStore "how is my budget?" (some "2025-01")
        true true).1
      = some "Budgets:\n- groceries: $50.00 / $40.00 (over)"
    ∧ strContains "Budgets:\n- groceries: $50.00 / $40.00 (over)"
        "groceries: 50.00/40.00 (over)" = false :=
  ⟨by with_unfolding_all rfl, by decide⟩

end Finance
